import Mathlib

/-!
Verification of the GLES adapter probe (`wgpu-hal/src/gles/adapter.rs`).

Rust strings are modelled as lists of characters (`Str`); the fallible
operations of the source (substring search, numeric parsing, `NonZeroU64`
construction) are modelled with `Option`.  A `.unwrap()` on a failing
`Option` in the source is modelled as an explicit `panicked` outcome, so
that "returns no adapter" and "crashes" are distinguishable results.
-/

namespace WgpuGles

/-- Rust `&str`, modelled at character granularity. -/
abbrev Str := List Char

/-- Rust `str::find(pat)`: index of the leftmost occurrence of `pat`. -/
def findSub : Str → Str → Option Nat
  | [], pat => if pat.isPrefixOf ([] : Str) then some 0 else none
  | c :: rest, pat =>
    if pat.isPrefixOf (c :: rest) then some 0
    else (findSub rest pat).map (· + 1)

/-- Rust `str::rfind(pat)`: index of the rightmost occurrence of `pat`. -/
def rfindSub : Str → Str → Option Nat
  | [], pat => if pat.isPrefixOf ([] : Str) then some 0 else none
  | c :: rest, pat =>
    match rfindSub rest pat with
    | some i => some (i + 1)
    | none => if pat.isPrefixOf (c :: rest) then some 0 else none

/-- Rust `str::contains(pat)`. -/
def containsSub (s pat : Str) : Bool := (findSub s pat).isSome

/-- Rust `str::split('.')`: splits on every separator, keeping empty pieces. -/
def splitDot : Str → List Str
  | [] => [[]]
  | c :: rest =>
    if c = '.' then [] :: splitDot rest
    else
      match splitDot rest with
      | [] => [[c]]
      | p :: ps => (c :: p) :: ps

/-- Rust `str::trim_end_matches('0')`. -/
def trimZeros (s : Str) : Str := (s.reverse.dropWhile (fun c => c = '0')).reverse

/-- Numeric value of a digit string (most significant digit first). -/
def natOfDigits (s : Str) : Nat := List.foldl (fun n c => n * 10 + (c.toNat - 48)) 0 s

/-- Rust `str::parse::<u8>()`: optional leading `+`, then one or more digits,
failing on overflow past 255. -/
def parseU8 (s : Str) : Option Nat :=
  let t := if s.head? = some '+' then s.tail else s
  if t ≠ [] ∧ t.all Char.isDigit then
    if natOfDigits t ≤ 255 then some (natOfDigits t) else none
  else none

/-- The `"WebGL "` marker of `parse_version`. -/
def webglSig : Str := "WebGL ".toList

/-- The `" ES "` marker of `parse_version`. -/
def esSig : Str := " ES ".toList

/-- The `"GLSL ES "` marker of `parse_version`. -/
def glslEsSig : Str := "GLSL ES ".toList

/-- The suffix of `src` after the rightmost `"WebGL "` marker
(`src.rfind(webgl_sig).unwrap_or(0)` followed by the slice). -/
def webglStripped (src : Str) : Str :=
  src.drop ((rfindSub src webglSig).getD 0 + webglSig.length)

/-- The minor-component normalization applied by `parse_version`:
a component starting with `'0'` is replaced by `"0"`, otherwise its
trailing zeros are stripped. -/
def minorTrim (s : Str) : Str :=
  if s.head? = some '0' then ['0'] else trimZeros s

/-- Core of `Adapter::parse_version` from `gles/adapter.rs`: returns
`(is_webgl, is_glsl, major, minor)` before the WebGL major remap is applied. -/
def parse_core (src : Str) : Option (Bool × Bool × Nat × Nat) :=
  let is_webgl := webglSig.isPrefixOf src
  let step1 : Option Str :=
    if is_webgl then
      some (webglStripped src)
    else
      match rfindSub src esSig with
      | some pos => some (src.drop (pos + esSig.length))
      | none => none
  match step1 with
  | none => none
  | some s1 =>
    let step2 : Str × Bool :=
      match findSub s1 glslEsSig with
      | some pos => (s1.drop (pos + glslEsSig.length), true)
      | none => (s1, false)
    let version : Str :=
      match findSub step2.1 [' '] with
      | some i => step2.1.take i
      | none => step2.1
    let parts := splitDot version
    let major : Option Nat := parts.head?.bind parseU8
    let minor : Option Nat := (parts.drop 1).head?.bind (fun s => parseU8 (minorTrim s))
    match major, minor with
    | some mj, some mi => some (is_webgl, step2.2, mj, mi)
    | _, _ => none

/-- `Adapter::parse_version`: `parse_core` followed by the WebGL remap
(`major + 1` when `is_webgl && !is_glsl`).  The increment is `u8` addition,
so it wraps modulo `2^8` (the release-profile semantics of the source;
`255 + 1 = 0`). -/
def parse_version (src : Str) : Option (Nat × Nat) :=
  (parse_core src).map fun x =>
    (if x.1 && !x.2.1 then (x.2.2.1 + 1) % 256 else x.2.2.1, x.2.2.2)

/-- The parser with the web-variant remap step removed: the spec's baseline
against which "major is incremented" / "major is returned unchanged" is
stated (a spec-side definition for the refinement claim about the remap). -/
def parse_noremap (src : Str) : Option (Nat × Nat) :=
  (parse_core src).map fun x => (x.2.2.1, x.2.2.2)

/-- ASCII lowercasing of one character (Rust `to_lowercase` restricted to the
ASCII letters that the classifier's match tokens consist of). -/
def asciiToLower (c : Char) : Char :=
  if 'A' ≤ c ∧ c ≤ 'Z' then Char.ofNat (c.toNat + 32) else c

/-- Rust `str::to_lowercase()`. -/
def toLowerStr (s : Str) : Str := s.map asciiToLower

/-- `wgt::DeviceType` (the variants constructed by this file). -/
inductive DeviceType where
  | IntegratedGpu
  | DiscreteGpu
  | Cpu
deriving DecidableEq

/-- `wgt::Backend` (only `Gl` is constructed here). -/
inductive Backend where
  | Gl
deriving DecidableEq

/-- `wgt::AdapterInfo` as populated by `make_info`. -/
structure AdapterInfo where
  name : Str
  vendor : Nat
  device : Nat
  device_type : DeviceType
  backend : Backend
deriving DecidableEq

/-- The `strings_that_imply_integrated` table of `make_info`, in source order. -/
def stringsThatImplyIntegrated : List Str :=
  [" xpress".toList,
   "radeon hd 4200".toList,
   "radeon hd 4250".toList,
   "radeon hd 4290".toList,
   "radeon hd 4270".toList,
   "radeon hd 4225".toList,
   "radeon hd 3100".toList,
   "radeon hd 3200".toList,
   "radeon hd 3000".toList,
   "radeon hd 3300".toList,
   "radeon(tm) r4 graphics".toList,
   "radeon(tm) r5 graphics".toList,
   "radeon(tm) r6 graphics".toList,
   "radeon(tm) r7 graphics".toList,
   "radeon r7 graphics".toList,
   "nforce".toList,
   "tegra".toList,
   "shield".toList,
   "igp".toList,
   "mali".toList,
   "intel".toList]

/-- The `strings_that_imply_cpu` table of `make_info`, in source order. -/
def stringsThatImplyCpu : List Str :=
  ["mesa offscreen".toList, "swiftshader".toList, "lavapipe".toList]

/-- `Adapter::make_info` from `gles/adapter.rs`. -/
def make_info (vendor_orig renderer_orig : Str) : AdapterInfo :=
  let vendor := toLowerStr vendor_orig
  let renderer := toLowerStr renderer_orig
  let inferred_device_type :=
    if containsSub vendor "qualcomm".toList
        || containsSub vendor "intel".toList
        || stringsThatImplyIntegrated.any (fun s => containsSub renderer s) then
      DeviceType.IntegratedGpu
    else if stringsThatImplyCpu.any (fun s => containsSub renderer s) then
      DeviceType.Cpu
    else
      DeviceType.DiscreteGpu
  let vendor_id : Nat :=
    if containsSub vendor "amd".toList then 0x1002
    else if containsSub vendor "imgtec".toList then 0x1010
    else if containsSub vendor "nvidia".toList then 0x10DE
    else if containsSub vendor "arm".toList then 0x13B5
    else if containsSub vendor "qualcomm".toList then 0x5143
    else if containsSub vendor "intel".toList then 0x8086
    else 0
  { name := renderer_orig
    vendor := vendor_id
    device := 0
    device_type := inferred_device_type
    backend := Backend.Gl }

/-- Rust `i32 as u32` (two's-complement reinterpretation). -/
def u32_of_i32 (x : Int) : Nat := (x % (2 ^ 32 : Int)).toNat

/-- Rust `i32 as u64` (sign extension then reinterpretation). -/
def u64_of_i32 (x : Int) : Nat := (x % (2 ^ 64 : Int)).toNat

/-- Rust `(u8, u8) >= (u8, u8)` — lexicographic tuple comparison, as used for
`ver >= (3, 1)` in `expose`. -/
def verGe (a b : Nat × Nat) : Bool :=
  Nat.blt b.1 a.1 || (a.1 == b.1 && Nat.ble b.2 a.2)

/-- `wgt::BufferSize::new` (`NonZeroU64::new`): `None` exactly on zero. -/
def BufferSizeNew (n : Nat) : Option Nat :=
  if n = 0 then none else some n

/-- The `wgt::Features` bits touched by `expose` (bits never set stay `false`). -/
structure Features where
  texture_compression_etc2 : Bool
  depth_clamping : Bool
  vertex_writable_storage : Bool
deriving DecidableEq

/-- The `wgt::DownlevelFlags` bits touched by `expose`. -/
structure DownlevelFlags where
  device_local_image_copies : Bool
  non_power_of_two_mipmapped_textures : Bool
  cube_array_textures : Bool
  comparison_samplers : Bool
  compute_shaders : Bool
  fragment_writable_storage : Bool
  indirect_execution : Bool
  base_vertex : Bool
  independent_blending : Bool
deriving DecidableEq

/-- The `PrivateCapabilities` bits touched by `expose`. -/
structure PrivateCapabilities where
  shader_binding_layout : Bool
  shader_texture_shadow_lod : Bool
  memory_barriers : Bool
  vertex_buffer_layout : Bool
deriving DecidableEq

/-- `wgt::Limits` as populated by `expose`. -/
structure Limits where
  max_texture_dimension_1d : Nat
  max_texture_dimension_2d : Nat
  max_texture_dimension_3d : Nat
  max_texture_array_layers : Nat
  max_bind_groups : Nat
  max_dynamic_uniform_buffers_per_pipeline_layout : Nat
  max_dynamic_storage_buffers_per_pipeline_layout : Nat
  max_sampled_textures_per_shader_stage : Nat
  max_samplers_per_shader_stage : Nat
  max_storage_buffers_per_shader_stage : Nat
  max_storage_textures_per_shader_stage : Nat
  max_uniform_buffers_per_shader_stage : Nat
  max_uniform_buffer_binding_size : Nat
  max_storage_buffer_binding_size : Nat
  max_vertex_buffers : Nat
  max_vertex_attributes : Nat
  max_vertex_buffer_array_stride : Nat
  max_push_constant_size : Nat
deriving DecidableEq

/-- `crate::Alignments` as populated by `expose` (values of the `BufferSize`
fields, which are non-zero u64 by construction). -/
structure Alignments where
  buffer_copy_offset : Nat
  buffer_copy_pitch : Nat
  uniform_buffer_offset : Nat
  storage_buffer_offset : Nat
deriving DecidableEq

/-- The observable content of a successful `expose`: adapter info, feature
flags, downlevel flags, private capabilities (stored in `AdapterShared`),
limits, alignments and the encoded shading-language version. -/
structure ExposedAdapter where
  info : AdapterInfo
  features : Features
  downlevel_flags : DownlevelFlags
  private_caps : PrivateCapabilities
  limits : Limits
  alignments : Alignments
  shading_language_version : Nat
deriving DecidableEq

/-- Outcome of `expose`: a populated adapter, `None` (a failed `?`), or a
panic (a failed `.unwrap()`). -/
inductive ExposeResult where
  | ok : ExposedAdapter → ExposeResult
  | noAdapter : ExposeResult
  | panicked : ExposeResult
deriving DecidableEq

/-- The driver state observed by `expose` through the `glow` context: the
string parameters, the extension set, and every integer parameter queried.
`max_vertex_image_uniforms` is part of the driver state but is never queried
by the source. -/
structure GlContext where
  vendor : Str
  renderer : Str
  version : Str
  shading_language_version : Str
  extensions : List Str
  max_texture_size : Int
  max_3d_texture_size : Int
  max_array_texture_layers : Int
  uniform_buffer_offset_alignment : Int
  shader_storage_buffer_offset_alignment : Int
  max_vertex_uniform_blocks : Int
  max_fragment_uniform_blocks : Int
  max_vertex_shader_storage_blocks : Int
  max_fragment_shader_storage_blocks : Int
  max_vertex_image_uniforms : Int
  max_fragment_image_uniforms : Int
  max_uniform_block_size : Int
  max_shader_storage_block_size : Int
  max_vertex_attrib_bindings : Int
  max_vertex_attribs : Int
  max_vertex_attrib_stride : Int

/-- Modelled from the spec: `crate::MAX_BIND_GROUPS`, a fixed architectural
maximum defined outside the shown source. -/
def MAX_BIND_GROUPS : Nat := 8

/-- Modelled from the spec: `super::MAX_TEXTURE_SLOTS`, a fixed architectural
maximum defined outside the shown source. -/
def MAX_TEXTURE_SLOTS : Nat := 16

/-- Modelled from the spec: `super::MAX_SAMPLERS`, a fixed architectural
maximum defined outside the shown source. -/
def MAX_SAMPLERS : Nat := 16

/-- Modelled from the spec: `super::MAX_VERTEX_ATTRIBUTES`, a fixed
architectural maximum defined outside the shown source. -/
def MAX_VERTEX_ATTRIBUTES : Nat := 16

/-- The `features` bitset built by `expose`. -/
def featuresFrom (gl : GlContext) (ver : Nat × Nat) : Features :=
  { texture_compression_etc2 := true
    depth_clamping := gl.extensions.contains "GL_EXT_depth_clamp".toList
    vertex_writable_storage := verGe ver (3, 1) }

/-- The `downlevel_flags` bitset built by `expose`. -/
def downlevelFrom (gl : GlContext) (ver : Nat × Nat) : DownlevelFlags :=
  { device_local_image_copies := true
    non_power_of_two_mipmapped_textures := true
    cube_array_textures := true
    comparison_samplers := true
    compute_shaders := verGe ver (3, 1)
    fragment_writable_storage := verGe ver (3, 1)
    indirect_execution := verGe ver (3, 1)
    base_vertex := verGe ver (3, 2)
    independent_blending :=
      verGe ver (3, 2) || gl.extensions.contains "GL_EXT_draw_buffers_indexed".toList }

/-- The `private_caps` bitset built by `expose`. -/
def privateCapsFrom (gl : GlContext) (ver : Nat × Nat) : PrivateCapabilities :=
  { shader_binding_layout := verGe ver (3, 1)
    shader_texture_shadow_lod := gl.extensions.contains "GL_EXT_texture_shadow_lod".toList
    memory_barriers := verGe ver (3, 1)
    vertex_buffer_layout := verGe ver (3, 1) }

/-- The `min_storage_buffer_offset_alignment` binding of `expose`:
queried only at version `(3,1)` and above, `256` below. -/
def minStorageAlignment (gl : GlContext) (ver : Nat × Nat) : Nat :=
  if verGe ver (3, 1) then u32_of_i32 gl.shader_storage_buffer_offset_alignment else 256

/-- The `wgt::Limits` record built by `expose`. -/
def limitsFrom (gl : GlContext) (ver : Nat × Nat) : Limits :=
  let max_texture_size := u32_of_i32 gl.max_texture_size
  let max_texture_3d_size := u32_of_i32 gl.max_3d_texture_size
  let max_uniform_buffers_per_shader_stage :=
    u32_of_i32 (min gl.max_vertex_uniform_blocks gl.max_fragment_uniform_blocks)
  let max_storage_buffers_per_shader_stage :=
    u32_of_i32 (min gl.max_vertex_shader_storage_blocks gl.max_fragment_shader_storage_blocks)
  let max_storage_textures_per_shader_stage := u32_of_i32 gl.max_fragment_image_uniforms
  { max_texture_dimension_1d := max_texture_size
    max_texture_dimension_2d := max_texture_size
    max_texture_dimension_3d := max_texture_3d_size
    max_texture_array_layers := u32_of_i32 gl.max_array_texture_layers
    max_bind_groups := MAX_BIND_GROUPS
    max_dynamic_uniform_buffers_per_pipeline_layout := max_uniform_buffers_per_shader_stage
    max_dynamic_storage_buffers_per_pipeline_layout := max_storage_buffers_per_shader_stage
    max_sampled_textures_per_shader_stage := MAX_TEXTURE_SLOTS
    max_samplers_per_shader_stage := MAX_SAMPLERS
    max_storage_buffers_per_shader_stage := max_storage_buffers_per_shader_stage
    max_storage_textures_per_shader_stage := max_storage_textures_per_shader_stage
    max_uniform_buffers_per_shader_stage := max_uniform_buffers_per_shader_stage
    max_uniform_buffer_binding_size := u32_of_i32 gl.max_uniform_block_size
    max_storage_buffer_binding_size :=
      if verGe ver (3, 1) then u32_of_i32 gl.max_shader_storage_block_size else 0
    max_vertex_buffers := u32_of_i32 gl.max_vertex_attrib_bindings
    max_vertex_attributes := min (u32_of_i32 gl.max_vertex_attribs) MAX_VERTEX_ATTRIBUTES
    max_vertex_buffer_array_stride := u32_of_i32 gl.max_vertex_attrib_stride
    max_push_constant_size := 0 }

/-- The four `BufferSize::new(..).unwrap()` calls of the `Alignments` literal,
in source field order (`4`, `4`, then — as in the source — the storage-derived
value into `uniform_buffer_offset` and the uniform-derived value into
`storage_buffer_offset`); `none` models the panic of a failed unwrap. -/
def mkAlignments (stor uni : Nat) : Option Alignments :=
  match BufferSizeNew 4, BufferSizeNew 4, BufferSizeNew stor, BufferSizeNew uni with
  | some bco, some bcp, some ubo, some sbo =>
    some { buffer_copy_offset := bco, buffer_copy_pitch := bcp
           uniform_buffer_offset := ubo, storage_buffer_offset := sbo }
  | _, _, _, _ => none

/-- Body of `Adapter::expose` after both version strings have parsed
(`ver` is the driver version, `sl` the shading-language version; the
encoded value `sl_major*100 + sl_minor*10` stays below `2^16`, so the `u16`
arithmetic of the source never wraps). -/
def exposeWithVersions (gl : GlContext) (ver : Nat × Nat) (sl : Nat × Nat) : ExposeResult :=
  match mkAlignments (minStorageAlignment gl ver)
          (u64_of_i32 gl.uniform_buffer_offset_alignment) with
  | some a =>
    ExposeResult.ok
      { info := make_info gl.vendor gl.renderer
        features := featuresFrom gl ver
        downlevel_flags := downlevelFrom gl ver
        private_caps := privateCapsFrom gl ver
        limits := limitsFrom gl ver
        alignments := a
        shading_language_version := sl.1 * 100 + sl.2 * 10 }
  | none => ExposeResult.panicked

/-- The descriptor produced by a successful `expose` at driver version `ver`
and shading-language version `sl` (the `ok` branch of `exposeWithVersions`
with the four unwraps succeeded). -/
def descriptorFrom (gl : GlContext) (ver sl : Nat × Nat) : ExposedAdapter :=
  { info := make_info gl.vendor gl.renderer
    features := featuresFrom gl ver
    downlevel_flags := downlevelFrom gl ver
    private_caps := privateCapsFrom gl ver
    limits := limitsFrom gl ver
    alignments :=
      { buffer_copy_offset := 4
        buffer_copy_pitch := 4
        uniform_buffer_offset := minStorageAlignment gl ver
        storage_buffer_offset := u64_of_i32 gl.uniform_buffer_offset_alignment }
    shading_language_version := sl.1 * 100 + sl.2 * 10 }

/-- `Adapter::expose` from `gles/adapter.rs`. -/
def expose (gl : GlContext) : ExposeResult :=
  match parse_version gl.version with
  | none => ExposeResult.noAdapter
  | some ver =>
    match parse_version gl.shading_language_version with
    | none => ExposeResult.noAdapter
    | some sl => exposeWithVersions gl ver sl

/-- Alignments of a successful probe, `none` otherwise (statement helper). -/
def alignmentsOf : ExposeResult → Option Alignments
  | ExposeResult.ok d => some d.alignments
  | _ => none

/-- Limits of a successful probe, `none` otherwise (statement helper). -/
def limitsOf : ExposeResult → Option Limits
  | ExposeResult.ok d => some d.limits
  | _ => none

/-- `wgt::TextureFormat` — exactly the variants matched (exhaustively, with no
wildcard) by `texture_format_capabilities`. -/
inductive TextureFormat where
  | R8Unorm | R8Snorm | R8Uint | R8Sint
  | R16Uint | R16Sint | R16Float
  | Rg8Unorm | Rg8Snorm | Rg8Uint | Rg8Sint
  | R32Uint | R32Sint | R32Float
  | Rg16Uint | Rg16Sint | Rg16Float
  | Rgba8Unorm | Rgba8UnormSrgb | Rgba8Snorm | Rgba8Uint | Rgba8Sint
  | Bgra8Unorm | Bgra8UnormSrgb
  | Rgb10a2Unorm | Rg11b10Float
  | Rg32Uint | Rg32Sint | Rg32Float
  | Rgba16Uint | Rgba16Sint | Rgba16Float
  | Rgba32Uint | Rgba32Sint | Rgba32Float
  | Depth32Float | Depth24Plus | Depth24PlusStencil8
  | Bc1RgbaUnorm | Bc1RgbaUnormSrgb | Bc2RgbaUnorm | Bc2RgbaUnormSrgb
  | Bc3RgbaUnorm | Bc3RgbaUnormSrgb | Bc4RUnorm | Bc4RSnorm
  | Bc5RgUnorm | Bc5RgSnorm | Bc6hRgbSfloat | Bc6hRgbUfloat
  | Bc7RgbaUnorm | Bc7RgbaUnormSrgb
  | Etc2RgbUnorm | Etc2RgbUnormSrgb | Etc2RgbA1Unorm | Etc2RgbA1UnormSrgb
  | EacRUnorm | EacRSnorm | EacRgUnorm | EacRgSnorm
  | Astc4x4RgbaUnorm | Astc4x4RgbaUnormSrgb
  | Astc5x4RgbaUnorm | Astc5x4RgbaUnormSrgb
  | Astc5x5RgbaUnorm | Astc5x5RgbaUnormSrgb
  | Astc6x5RgbaUnorm | Astc6x5RgbaUnormSrgb
  | Astc6x6RgbaUnorm | Astc6x6RgbaUnormSrgb
  | Astc8x5RgbaUnorm | Astc8x5RgbaUnormSrgb
  | Astc8x6RgbaUnorm | Astc8x6RgbaUnormSrgb
  | Astc10x5RgbaUnorm | Astc10x5RgbaUnormSrgb
  | Astc10x6RgbaUnorm | Astc10x6RgbaUnormSrgb
  | Astc8x8RgbaUnorm | Astc8x8RgbaUnormSrgb
  | Astc10x8RgbaUnorm | Astc10x8RgbaUnormSrgb
  | Astc10x10RgbaUnorm | Astc10x10RgbaUnormSrgb
  | Astc12x10RgbaUnorm | Astc12x10RgbaUnormSrgb
  | Astc12x12RgbaUnorm | Astc12x12RgbaUnormSrgb
deriving DecidableEq

/-- `crate::TextureFormatCapabilities` — the bits used by this table. -/
structure TextureFormatCapabilities where
  sampled : Bool
  sampled_linear : Bool
  color_attachment : Bool
  color_attachment_blend : Bool
  storage : Bool
  depth_stencil_attachment : Bool
deriving DecidableEq

/-- The empty capability set (`Tfc::empty()`). -/
def emptyTfc : TextureFormatCapabilities :=
  { sampled := false, sampled_linear := false, color_attachment := false
    color_attachment_blend := false, storage := false, depth_stencil_attachment := false }

/-- `unfiltered_color` = `Tfc::SAMPLED | Tfc::COLOR_ATTACHMENT`. -/
def unfilteredColor : TextureFormatCapabilities :=
  { emptyTfc with sampled := true, color_attachment := true }

/-- `filtered_color` = `unfiltered_color | Tfc::SAMPLED_LINEAR | Tfc::COLOR_ATTACHMENT_BLEND`. -/
def filteredColor : TextureFormatCapabilities :=
  { unfilteredColor with sampled_linear := true, color_attachment_blend := true }

/-- Adds `Tfc::STORAGE` to a capability set. -/
def withStorage (t : TextureFormatCapabilities) : TextureFormatCapabilities :=
  { t with storage := true }

/-- `Tfc::SAMPLED | Tfc::DEPTH_STENCIL_ATTACHMENT`. -/
def depthStencilCaps : TextureFormatCapabilities :=
  { emptyTfc with sampled := true, depth_stencil_attachment := true }

/-- `Tfc::SAMPLED | Tfc::SAMPLED_LINEAR` (the compressed-format arm). -/
def sampledLinearOnly : TextureFormatCapabilities :=
  { emptyTfc with sampled := true, sampled_linear := true }

/-- `Adapter::texture_format_capabilities` from `gles/adapter.rs`. -/
def texture_format_capabilities (format : TextureFormat) : TextureFormatCapabilities :=
  match format with
  | .R8Unorm | .R8Snorm => filteredColor
  | .R8Uint | .R8Sint | .R16Uint | .R16Sint => unfilteredColor
  | .R16Float | .Rg8Unorm | .Rg8Snorm => filteredColor
  | .Rg8Uint | .Rg8Sint | .R32Uint | .R32Sint => withStorage unfilteredColor
  | .R32Float => unfilteredColor
  | .Rg16Uint | .Rg16Sint => unfilteredColor
  | .Rg16Float | .Rgba8Unorm | .Rgba8UnormSrgb => withStorage filteredColor
  | .Bgra8UnormSrgb | .Rgba8Snorm | .Bgra8Unorm => filteredColor
  | .Rgba8Uint | .Rgba8Sint => withStorage unfilteredColor
  | .Rgb10a2Unorm | .Rg11b10Float => filteredColor
  | .Rg32Uint | .Rg32Sint => unfilteredColor
  | .Rg32Float => withStorage unfilteredColor
  | .Rgba16Uint | .Rgba16Sint => withStorage unfilteredColor
  | .Rgba16Float => withStorage filteredColor
  | .Rgba32Uint | .Rgba32Sint => withStorage unfilteredColor
  | .Rgba32Float => withStorage unfilteredColor
  | .Depth32Float => depthStencilCaps
  | .Depth24Plus => depthStencilCaps
  | .Depth24PlusStencil8 => depthStencilCaps
  | .Bc1RgbaUnorm | .Bc1RgbaUnormSrgb | .Bc2RgbaUnorm | .Bc2RgbaUnormSrgb
  | .Bc3RgbaUnorm | .Bc3RgbaUnormSrgb | .Bc4RUnorm | .Bc4RSnorm
  | .Bc5RgUnorm | .Bc5RgSnorm | .Bc6hRgbSfloat | .Bc6hRgbUfloat
  | .Bc7RgbaUnorm | .Bc7RgbaUnormSrgb
  | .Etc2RgbUnorm | .Etc2RgbUnormSrgb | .Etc2RgbA1Unorm | .Etc2RgbA1UnormSrgb
  | .EacRUnorm | .EacRSnorm | .EacRgUnorm | .EacRgSnorm
  | .Astc4x4RgbaUnorm | .Astc4x4RgbaUnormSrgb
  | .Astc5x4RgbaUnorm | .Astc5x4RgbaUnormSrgb
  | .Astc5x5RgbaUnorm | .Astc5x5RgbaUnormSrgb
  | .Astc6x5RgbaUnorm | .Astc6x5RgbaUnormSrgb
  | .Astc6x6RgbaUnorm | .Astc6x6RgbaUnormSrgb
  | .Astc8x5RgbaUnorm | .Astc8x5RgbaUnormSrgb
  | .Astc8x6RgbaUnorm | .Astc8x6RgbaUnormSrgb
  | .Astc10x5RgbaUnorm | .Astc10x5RgbaUnormSrgb
  | .Astc10x6RgbaUnorm | .Astc10x6RgbaUnormSrgb
  | .Astc8x8RgbaUnorm | .Astc8x8RgbaUnormSrgb
  | .Astc10x8RgbaUnorm | .Astc10x8RgbaUnormSrgb
  | .Astc10x10RgbaUnorm | .Astc10x10RgbaUnormSrgb
  | .Astc12x10RgbaUnorm | .Astc12x10RgbaUnormSrgb
  | .Astc12x12RgbaUnorm | .Astc12x12RgbaUnormSrgb => sampledLinearOnly

/-- Whether a format belongs to the block-compressed / ASTC / ETC / EAC arm
of the source's match (the claim's "compressed" formats). -/
def isCompressedFormat (format : TextureFormat) : Bool :=
  match format with
  | .Bc1RgbaUnorm | .Bc1RgbaUnormSrgb | .Bc2RgbaUnorm | .Bc2RgbaUnormSrgb
  | .Bc3RgbaUnorm | .Bc3RgbaUnormSrgb | .Bc4RUnorm | .Bc4RSnorm
  | .Bc5RgUnorm | .Bc5RgSnorm | .Bc6hRgbSfloat | .Bc6hRgbUfloat
  | .Bc7RgbaUnorm | .Bc7RgbaUnormSrgb
  | .Etc2RgbUnorm | .Etc2RgbUnormSrgb | .Etc2RgbA1Unorm | .Etc2RgbA1UnormSrgb
  | .EacRUnorm | .EacRSnorm | .EacRgUnorm | .EacRgSnorm
  | .Astc4x4RgbaUnorm | .Astc4x4RgbaUnormSrgb
  | .Astc5x4RgbaUnorm | .Astc5x4RgbaUnormSrgb
  | .Astc5x5RgbaUnorm | .Astc5x5RgbaUnormSrgb
  | .Astc6x5RgbaUnorm | .Astc6x5RgbaUnormSrgb
  | .Astc6x6RgbaUnorm | .Astc6x6RgbaUnormSrgb
  | .Astc8x5RgbaUnorm | .Astc8x5RgbaUnormSrgb
  | .Astc8x6RgbaUnorm | .Astc8x6RgbaUnormSrgb
  | .Astc10x5RgbaUnorm | .Astc10x5RgbaUnormSrgb
  | .Astc10x6RgbaUnorm | .Astc10x6RgbaUnormSrgb
  | .Astc8x8RgbaUnorm | .Astc8x8RgbaUnormSrgb
  | .Astc10x8RgbaUnorm | .Astc10x8RgbaUnormSrgb
  | .Astc10x10RgbaUnorm | .Astc10x10RgbaUnormSrgb
  | .Astc12x10RgbaUnorm | .Astc12x10RgbaUnormSrgb
  | .Astc12x12RgbaUnorm | .Astc12x12RgbaUnormSrgb => true
  | _ => false

/-- `wgt::PresentMode` (only `Fifo` is constructed here). -/
inductive PresentMode where
  | Fifo
deriving DecidableEq

/-- `crate::CompositeAlphaMode` (only `Opaque` is constructed here). -/
inductive CompositeAlphaMode where
  | Opaque
deriving DecidableEq

/-- `wgt::Extent3d`. -/
structure Extent3d where
  width : Nat
  height : Nat
  depth_or_array_layers : Nat
deriving DecidableEq

/-- The `crate::TextureUses` bits constructed here (`COLOR_TARGET`). -/
structure TextureUses where
  color_target : Bool
deriving DecidableEq

/-- `crate::SurfaceCapabilities`; inclusive ranges are modelled as pairs. -/
structure SurfaceCapabilities where
  formats : List TextureFormat
  present_modes : List PresentMode
  composite_alpha_modes : List CompositeAlphaMode
  swap_chain_sizes : Nat × Nat
  current_extent : Option Extent3d
  extents : Extent3d × Extent3d
  usage : TextureUses
deriving DecidableEq

/-- The part of `super::Surface` read by `surface_capabilities`. -/
structure Surface where
  presentable : Bool

/-- `Adapter::surface_capabilities` from `gles/adapter.rs`. -/
def surface_capabilities (surface : Surface) : Option SurfaceCapabilities :=
  if surface.presentable then
    some
      { formats := [TextureFormat.Rgba8UnormSrgb, TextureFormat.Bgra8UnormSrgb]
        present_modes := [PresentMode.Fifo]
        composite_alpha_modes := [CompositeAlphaMode.Opaque]
        swap_chain_sizes := (2, 2)
        current_extent := none
        extents :=
          ({ width := 4, height := 4, depth_or_array_layers := 1 },
           { width := 4096, height := 4096, depth_or_array_layers := 1 })
        usage := { color_target := true } }
  else
    none

/-- Pointwise implication of the feature bits set by `expose`. -/
def featuresLe (a b : Features) : Prop :=
  (a.texture_compression_etc2 = true → b.texture_compression_etc2 = true) ∧
  (a.depth_clamping = true → b.depth_clamping = true) ∧
  (a.vertex_writable_storage = true → b.vertex_writable_storage = true)

/-- Pointwise implication of the downlevel bits set by `expose`. -/
def downlevelLe (a b : DownlevelFlags) : Prop :=
  (a.device_local_image_copies = true → b.device_local_image_copies = true) ∧
  (a.non_power_of_two_mipmapped_textures = true → b.non_power_of_two_mipmapped_textures = true) ∧
  (a.cube_array_textures = true → b.cube_array_textures = true) ∧
  (a.comparison_samplers = true → b.comparison_samplers = true) ∧
  (a.compute_shaders = true → b.compute_shaders = true) ∧
  (a.fragment_writable_storage = true → b.fragment_writable_storage = true) ∧
  (a.indirect_execution = true → b.indirect_execution = true) ∧
  (a.base_vertex = true → b.base_vertex = true) ∧
  (a.independent_blending = true → b.independent_blending = true)

/-- Pointwise implication of the private-capability bits set by `expose`. -/
def privateLe (a b : PrivateCapabilities) : Prop :=
  (a.shader_binding_layout = true → b.shader_binding_layout = true) ∧
  (a.shader_texture_shadow_lod = true → b.shader_texture_shadow_lod = true) ∧
  (a.memory_barriers = true → b.memory_barriers = true) ∧
  (a.vertex_buffer_layout = true → b.vertex_buffer_layout = true)

/-- Characters that may appear in a numeric release (`digits` and `'.'`). -/
def isVerChar (c : Char) : Bool := c.isDigit || c == '.'

/-- A driver state with distinct, recognizable values in every queried
parameter, used to instantiate theorems at concrete probes. -/
def baseCtx : GlContext :=
  { vendor := "Nobody Corp".toList
    renderer := "Nothing 9000".toList
    version := "OpenGL ES 3.1".toList
    shading_language_version := "OpenGL ES GLSL ES 3.10".toList
    extensions := []
    max_texture_size := 2048
    max_3d_texture_size := 256
    max_array_texture_layers := 256
    uniform_buffer_offset_alignment := 16
    shader_storage_buffer_offset_alignment := 32
    max_vertex_uniform_blocks := 12
    max_fragment_uniform_blocks := 14
    max_vertex_shader_storage_blocks := 4
    max_fragment_shader_storage_blocks := 6
    max_vertex_image_uniforms := 2
    max_fragment_image_uniforms := 8
    max_uniform_block_size := 16384
    max_shader_storage_block_size := 134217728
    max_vertex_attrib_bindings := 16
    max_vertex_attribs := 16
    max_vertex_attrib_stride := 2048 }

example : parse_version "OpenGL ES 3.1".toList = some (3, 1) := by decide
example : parse_version "OpenGL ES 2.0 Google Nexus".toList = some (2, 0) := by decide
example : parse_version "GLSL ES 1.1".toList = some (1, 1) := by decide
example : parse_version "OpenGL ES GLSL ES 3.20".toList = some (3, 2) := by decide
example : parse_version "WebGL 2.0 (OpenGL ES 3.0 Chromium)".toList = some (3, 0) := by decide
example : parse_version "WebGL GLSL ES 3.00 (OpenGL ES GLSL ES 3.0 Chromium)".toList = some (3, 0) := by decide
example : parse_version "1".toList = none := by decide
example : parse_version "1.".toList = none := by decide
example : parse_version "1.2.3".toList = none := by decide
example : parse_version "1 h3l1o. W0rld".toList = none := by decide
example : parse_version "1. h3l1o. W0rld".toList = none := by decide

theorem rfindSub_isPrefix {s pat : Str} {i : Nat} (h : rfindSub s pat = some i) :
    pat.isPrefixOf (s.drop i) = true := by
  induction s generalizing i with
  | nil =>
    by_cases hp : pat.isPrefixOf ([] : Str) = true
    · simp only [rfindSub, if_pos hp] at h
      cases h
      simpa using hp
    · simp only [rfindSub, if_neg hp] at h
      cases h
  | cons c rest ih =>
    cases hr : rfindSub rest pat with
    | some k =>
      simp only [rfindSub, hr] at h
      cases h
      simpa using ih hr
    | none =>
      by_cases hp : pat.isPrefixOf (c :: rest) = true
      · simp only [rfindSub, hr, if_pos hp] at h
        cases h
        simpa using hp
      · simp only [rfindSub, hr, if_neg hp] at h
        cases h

theorem rfindSub_eq_some {s pat : Str} {i : Nat}
    (h1 : pat.isPrefixOf (s.drop i) = true)
    (h2 : ∀ j, i < j → pat.isPrefixOf (s.drop j) = false) :
    rfindSub s pat = some i := by
  induction s generalizing i with
  | nil =>
    exfalso
    have hp : pat = [] := by
      cases pat with
      | nil => rfl
      | cons a as => simp [List.isPrefixOf] at h1
    have := h2 (i + 1) (Nat.lt_succ_self i)
    rw [hp] at this
    simp [List.isPrefixOf] at this
  | cons c rest ih =>
    cases i with
    | zero =>
      have hnone : rfindSub rest pat = none := by
        cases hr : rfindSub rest pat with
        | none => rfl
        | some k =>
          have hk := rfindSub_isPrefix hr
          have hbad := h2 (k + 1) (Nat.succ_pos k)
          rw [List.drop_succ_cons, hk] at hbad
          cases hbad
      rw [List.drop_zero] at h1
      simp [rfindSub, hnone, h1]
    | succ j =>
      have h1' : pat.isPrefixOf (rest.drop j) = true := by simpa using h1
      have h2' : ∀ k, j < k → pat.isPrefixOf (rest.drop k) = false := by
        intro k hk
        have := h2 (k + 1) (Nat.succ_lt_succ hk)
        simpa using this
      simp only [rfindSub, ih h1' h2']

theorem rfindSub_append {marker t pat : Str}
    (h1 : pat.isPrefixOf t = true)
    (h2 : ∀ j, 0 < j → pat.isPrefixOf (t.drop j) = false) :
    rfindSub (marker ++ t) pat = some marker.length := by
  apply rfindSub_eq_some
  · rw [List.drop_left]
    exact h1
  · intro j hj
    have hj' : marker.length + (j - marker.length) = j := by omega
    rw [← hj', List.drop_append]
    exact h2 _ (by omega)

theorem findSub_eq_none_of_head {s : Str} {c : Char} {pt : Str} (h : c ∉ s) :
    findSub s (c :: pt) = none := by
  induction s with
  | nil => simp [findSub]
  | cons a rest ih =>
    have hca : c ≠ a := fun he => h (he ▸ List.mem_cons_self a rest)
    have hpre : (c :: pt).isPrefixOf (a :: rest) = false := by
      simp [List.isPrefixOf, hca]
    simp [findSub, hpre, ih (fun hm => h (List.mem_cons_of_mem _ hm))]

theorem isVerChar_facts {c : Char} (h : isVerChar c = true) :
    c ≠ ' ' ∧ c ≠ 'E' ∧ c ≠ 'G' := by
  refine ⟨?_, ?_, ?_⟩ <;> intro he <;> subst he <;> revert h <;> decide

theorem esSig_eq : esSig = [' ', 'E', 'S', ' '] := by decide

theorem esSig_not_prefix_ver {ver : Str} (hv : ∀ c ∈ ver, isVerChar c = true) (k : Nat) :
    esSig.isPrefixOf (ver.drop k) = false := by
  cases hd : ver.drop k with
  | nil => rw [esSig_eq]; rfl
  | cons a tail =>
    have ha : a ∈ ver := List.mem_of_mem_drop (hd ▸ List.mem_cons_self a tail)
    have hne : ' ' ≠ a := Ne.symm (isVerChar_facts (hv a ha)).1
    rw [esSig_eq]
    simp [List.isPrefixOf, hne]

theorem esSig_no_late {ver : Str} (hv : ∀ c ∈ ver, isVerChar c = true) :
    ∀ j, 0 < j → esSig.isPrefixOf ((esSig ++ ver).drop j) = false := by
  intro j hj
  match j with
  | 1 => rw [esSig_eq]; simp [List.isPrefixOf]
  | 2 => rw [esSig_eq]; simp [List.isPrefixOf]
  | 3 =>
    rw [esSig_eq]
    cases ver with
    | nil => rfl
    | cons a tail =>
      have hne : 'E' ≠ a :=
        Ne.symm (isVerChar_facts (hv a (List.mem_cons_self a tail))).2.1
      simp [List.isPrefixOf, hne]
  | (n + 4) =>
    have hdrop : (esSig ++ ver).drop (n + 4) = ver.drop n := by
      rw [esSig_eq]
      rfl
    rw [hdrop]
    exact esSig_not_prefix_ver hv n

theorem isPrefixOf_append_self : ∀ l t : Str, l.isPrefixOf (l ++ t) = true
  | [], _ => by simp [List.isPrefixOf]
  | c :: r, t => by simp [List.isPrefixOf, isPrefixOf_append_self r t]

theorem rfindSub_marker (marker ver : Str) (hv : ∀ c ∈ ver, isVerChar c = true) :
    rfindSub (marker ++ (esSig ++ ver)) esSig = some marker.length := by
  apply rfindSub_append
  · exact isPrefixOf_append_self esSig ver
  · exact esSig_no_late hv

theorem splitDot_append_dot {a b : Str} (ha : '.' ∉ a) :
    splitDot (a ++ '.' :: b) = a :: splitDot b := by
  induction a with
  | nil => simp [splitDot]
  | cons c a' ih =>
    have hc : c ≠ '.' := fun he => ha (he ▸ List.mem_cons_self c a')
    have ha' : '.' ∉ a' := fun hm => ha (List.mem_cons_of_mem _ hm)
    rw [List.cons_append]
    simp only [splitDot, if_neg hc, ih ha']

theorem splitDot_no_dot {b : Str} (hb : '.' ∉ b) : splitDot b = [b] := by
  induction b with
  | nil => rfl
  | cons c b' ih =>
    have hc : c ≠ '.' := fun he => hb (he ▸ List.mem_cons_self c b')
    have hb' : '.' ∉ b' := fun hm => hb (List.mem_cons_of_mem _ hm)
    simp only [splitDot, if_neg hc, ih hb']

theorem digit_ne_chars {c : Char} (h : c.isDigit = true) :
    c ≠ '+' ∧ c ≠ '.' ∧ c ≠ ' ' := by
  refine ⟨?_, ?_, ?_⟩ <;> intro he <;> subst he <;> revert h <;> decide

theorem parseU8_digits {s : Str} (h1 : s ≠ []) (h2 : s.all Char.isDigit = true)
    (h3 : natOfDigits s ≤ 255) : parseU8 s = some (natOfDigits s) := by
  have hh : ¬ s.head? = some '+' := by
    cases s with
    | nil => simp
    | cons c r =>
      have hc : c.isDigit = true := by
        have := h2
        simp only [List.all_cons, Bool.and_eq_true] at this
        exact this.1
      simp only [List.head?, Option.some.injEq]
      exact fun he => (digit_ne_chars hc).1 he
  simp [parseU8, hh, h1, h2, h3]

theorem trimZeros_mem {s : Str} {c : Char} (h : c ∈ trimZeros s) : c ∈ s := by
  unfold trimZeros at h
  rw [List.mem_reverse] at h
  exact List.mem_reverse.mp ((List.dropWhile_sublist _).subset h)

theorem trimZeros_all_digits {s : Str} (h : s.all Char.isDigit = true) :
    (trimZeros s).all Char.isDigit = true := by
  rw [List.all_eq_true] at h ⊢
  exact fun c hc => h c (trimZeros_mem hc)

theorem trimZeros_ne_nil {c : Char} {r : Str} (hc : c ≠ '0') :
    trimZeros (c :: r) ≠ [] := by
  intro h
  unfold trimZeros at h
  have h' : (c :: r).reverse.dropWhile (fun x => x = '0') = [] := by
    have := congrArg List.reverse h
    simpa using this
  rw [List.dropWhile_eq_nil_iff] at h'
  exact hc (by simpa using h' c (by simp))

theorem parseU8_minorTrim {dm : Str} (h4 : dm ≠ []) (h5 : dm.all Char.isDigit = true)
    (h6 : (if dm.head? = some '0' then 0 else natOfDigits (trimZeros dm)) ≤ 255) :
    parseU8 (minorTrim dm) =
      some (if dm.head? = some '0' then 0 else natOfDigits (trimZeros dm)) := by
  by_cases hd : dm.head? = some '0'
  · rw [minorTrim, if_pos hd, if_pos hd]
    decide
  · rw [minorTrim, if_neg hd, if_neg hd]
    rw [if_neg hd] at h6
    cases dm with
    | nil => exact absurd rfl h4
    | cons c r =>
      have hc0 : c ≠ '0' := fun he => hd (by rw [List.head?_cons, he])
      exact parseU8_digits (trimZeros_ne_nil hc0) (trimZeros_all_digits h5) h6

theorem parse_core_wellformed (marker dM dm : Str)
    (hw : webglSig.isPrefixOf (marker ++ (esSig ++ (dM ++ '.' :: dm))) = false)
    (h1 : dM ≠ []) (h2 : dM.all Char.isDigit = true) (h3 : natOfDigits dM ≤ 255)
    (h4 : dm ≠ []) (h5 : dm.all Char.isDigit = true)
    (h6 : (if dm.head? = some '0' then 0 else natOfDigits (trimZeros dm)) ≤ 255) :
    parse_core (marker ++ (esSig ++ (dM ++ '.' :: dm)))
      = some (false, false, natOfDigits dM,
          if dm.head? = some '0' then 0 else natOfDigits (trimZeros dm)) := by
  have hv : ∀ c ∈ dM ++ '.' :: dm, isVerChar c = true := by
    intro c hc
    rcases List.mem_append.mp hc with h | h
    · have hcd : c.isDigit = true := by
        rw [List.all_eq_true] at h2
        simpa using h2 c h
      simp [isVerChar, hcd]
    · rcases List.mem_cons.mp h with h | h
      · subst h; decide
      · have hcd : c.isDigit = true := by
          rw [List.all_eq_true] at h5
          simpa using h5 c h
        simp [isVerChar, hcd]
  have hrf := rfindSub_marker marker _ hv
  have hG : 'G' ∉ dM ++ '.' :: dm := fun hm => (isVerChar_facts (hv _ hm)).2.2 rfl
  have hSp : ' ' ∉ dM ++ '.' :: dm := fun hm => (isVerChar_facts (hv _ hm)).1 rfl
  have hGl : findSub (dM ++ '.' :: dm) glslEsSig = none := by
    have he : glslEsSig = 'G' :: "LSL ES ".toList := by decide
    rw [he]
    exact findSub_eq_none_of_head hG
  have hSpf : findSub (dM ++ '.' :: dm) [' '] = none := findSub_eq_none_of_head hSp
  have hdDot : '.' ∉ dM := by
    intro hm
    rw [List.all_eq_true] at h2
    exact (digit_ne_chars (by simpa using h2 _ hm)).2.1 rfl
  have hmDot : '.' ∉ dm := by
    intro hm
    rw [List.all_eq_true] at h5
    exact (digit_ne_chars (by simpa using h5 _ hm)).2.1 rfl
  have hsplit : splitDot (dM ++ '.' :: dm) = [dM, dm] := by
    rw [splitDot_append_dot hdDot, splitDot_no_dot hmDot]
  have hdrop : (marker ++ (esSig ++ (dM ++ '.' :: dm))).drop (marker.length + esSig.length)
      = dM ++ '.' :: dm := by
    rw [← List.append_assoc]
    exact List.drop_left' (by simp)
  simp only [parse_core, hw, Bool.false_eq_true, if_false, hrf, hdrop, hGl, hSpf, hsplit]
  simp [parseU8_digits h1 h2 h3, parseU8_minorTrim h4 h5 h6]

/-- Claim C4: for every well-formed input of the form `<marker> ES <major>.<minor>`
(marker not web-variant, components numeric and in range), the version parser
returns exactly `(major, minor)`, where the minor component is normalized as:
if it starts with `'0'` the minor is `0`, otherwise trailing zeros are stripped
before numeric parsing; in particular
`parse("OpenGL ES GLSL ES 3.20") = (3,2)` and
`parse("OpenGL ES 2.0 Google Nexus") = (2,0)`. -/
theorem parse_version_wellformed_exact :
    (∀ (marker dM dm : Str),
      webglSig.isPrefixOf (marker ++ (esSig ++ (dM ++ '.' :: dm))) = false →
      dM ≠ [] → dM.all Char.isDigit = true → natOfDigits dM ≤ 255 →
      dm ≠ [] → dm.all Char.isDigit = true →
      (if dm.head? = some '0' then 0 else natOfDigits (trimZeros dm)) ≤ 255 →
      parse_version (marker ++ (esSig ++ (dM ++ '.' :: dm)))
        = some (natOfDigits dM,
            if dm.head? = some '0' then 0 else natOfDigits (trimZeros dm)))
    ∧ parse_version "OpenGL ES GLSL ES 3.20".toList = some (3, 2)
    ∧ parse_version "OpenGL ES 2.0 Google Nexus".toList = some (2, 0) := by
  refine ⟨?_, by decide, by decide⟩
  intro marker dM dm hw h1 h2 h3 h4 h5 h6
  rw [parse_version, parse_core_wellformed marker dM dm hw h1 h2 h3 h4 h5 h6]
  rfl

/-- Witness for C4: the general statement applied to `"OpenGL ES 3.1"`
split as marker `"OpenGL"`, major `"3"`, minor `"1"`. -/
theorem parse_version_wellformed_exact_witness :
    parse_version ("OpenGL".toList ++ (esSig ++ ("3".toList ++ '.' :: "1".toList)))
      = some (natOfDigits "3".toList,
          if "1".toList.head? = some '0' then 0 else natOfDigits (trimZeros "1".toList)) :=
  parse_version_wellformed_exact.1 "OpenGL".toList "3".toList "1".toList (by decide)
    (by decide) (by decide) (by decide) (by decide) (by decide) (by decide)

theorem parse_core_flags {src : Str} {w g : Bool} {M m : Nat}
    (h : parse_core src = some (w, g, M, m)) :
    w = webglSig.isPrefixOf src ∧
    (webglSig.isPrefixOf src = true →
      g = (findSub (webglStripped src) glslEsSig).isSome) := by
  by_cases hw : webglSig.isPrefixOf src = true
  · cases hf : findSub (webglStripped src) glslEsSig with
    | some pos =>
      simp only [parse_core, hw, if_true, hf] at h
      split at h
      · simp only [Option.some.injEq, Prod.mk.injEq] at h
        obtain ⟨h1, h2, _, _⟩ := h
        exact ⟨h1.symm.trans hw.symm, fun _ => by rw [← h2]; rfl⟩
      · cases h
    | none =>
      simp only [parse_core, hw, if_true, hf] at h
      split at h
      · simp only [Option.some.injEq, Prod.mk.injEq] at h
        obtain ⟨h1, h2, _, _⟩ := h
        exact ⟨h1.symm.trans hw.symm, fun _ => by rw [← h2]; rfl⟩
      · cases h
  · have hw' : webglSig.isPrefixOf src = false := Bool.eq_false_iff.mpr hw
    cases hr : rfindSub src esSig with
    | some pos =>
      simp only [parse_core, hw', Bool.false_eq_true, if_false, hr] at h
      cases hf : findSub (src.drop (pos + esSig.length)) glslEsSig with
      | some q =>
        rw [hf] at h
        split at h
        · simp only [Option.some.injEq, Prod.mk.injEq] at h
          obtain ⟨h1, _, _, _⟩ := h
          exact ⟨h1.symm.trans hw'.symm, fun hc => absurd hc hw⟩
        · cases h
      | none =>
        rw [hf] at h
        split at h
        · simp only [Option.some.injEq, Prod.mk.injEq] at h
          obtain ⟨h1, _, _, _⟩ := h
          exact ⟨h1.symm.trans hw'.symm, fun hc => absurd hc hw⟩
        · cases h
    | none =>
      simp only [parse_core, hw', Bool.false_eq_true, if_false, hr] at h
      cases h

/-- Claim C5 counterexample: the remap is `u8` addition, so at major 255 the
source wraps to 0 instead of incrementing to 256 — at `"WebGL 255.0 Chromium"`
the parser returns `(0, 0)`, not the plain increment `(256, 0)` of the
parsed major; the claim's "increments the parsed major by one" fails there. -/
theorem parse_version_webgl_remap_cex :
    parse_version "WebGL 255.0 Chromium".toList = some (0, 0) ∧
    parse_noremap "WebGL 255.0 Chromium".toList = some (255, 0) ∧
    parse_version "WebGL 255.0 Chromium".toList
      ≠ (parse_noremap "WebGL 255.0 Chromium".toList).map
          (fun p => (p.1 + 1, p.2)) := by
  refine ⟨by decide, by decide, by decide⟩

/-- Claim C5 (amended): the version parser increments the parsed major by one
modulo `2^8` (the `u8` wrapping of the source) exactly when the input begins
with the web-variant marker and no shading-language marker occurs after the
stripped prefix; in every other case major is returned unchanged
(`parse_noremap` is the same parser with the remap step removed); in
particular `parse("WebGL 2.0 (OpenGL ES 3.0 Chromium)") = (3,0)` and
`parse("WebGL GLSL ES 3.00 (OpenGL ES GLSL ES 3.0 Chromium)") = (3,0)`. -/
theorem parse_version_webgl_remap :
    (∀ src : Str, webglSig.isPrefixOf src = true →
      findSub (webglStripped src) glslEsSig = none →
      parse_version src = (parse_noremap src).map (fun p => ((p.1 + 1) % 256, p.2)))
    ∧ (∀ src : Str,
        webglSig.isPrefixOf src = false ∨
          (findSub (webglStripped src) glslEsSig).isSome = true →
        parse_version src = parse_noremap src)
    ∧ parse_version "WebGL 2.0 (OpenGL ES 3.0 Chromium)".toList = some (3, 0)
    ∧ parse_version "WebGL GLSL ES 3.00 (OpenGL ES GLSL ES 3.0 Chromium)".toList
        = some (3, 0) := by
  refine ⟨?_, ?_, by decide, by decide⟩
  · intro src hw hg
    cases hc : parse_core src with
    | none => simp [parse_version, parse_noremap, hc]
    | some x =>
      obtain ⟨w, g, M, m⟩ := x
      have hf := parse_core_flags hc
      have hw' : w = true := by rw [hf.1, hw]
      have hg' : g = false := by rw [hf.2 hw, hg]; rfl
      subst hw'
      subst hg'
      simp [parse_version, parse_noremap, hc]
  · intro src hcond
    cases hc : parse_core src with
    | none => simp [parse_version, parse_noremap, hc]
    | some x =>
      obtain ⟨w, g, M, m⟩ := x
      have hf := parse_core_flags hc
      rcases hcond with hw | hg
      · have hw' : w = false := by rw [hf.1, hw]
        subst hw'
        simp [parse_version, parse_noremap, hc]
      · by_cases hw : webglSig.isPrefixOf src = true
        · have hg' : g = true := by rw [hf.2 hw]; exact hg
          subst hg'
          simp [parse_version, parse_noremap, hc]
        · have hw2 : webglSig.isPrefixOf src = false := Bool.eq_false_iff.mpr hw
          have hw' : w = false := by rw [hf.1, hw2]
          subst hw'
          simp [parse_version, parse_noremap, hc]

/-- Witness for the amended C5: the remap direction applied at
`"WebGL 2.0 (OpenGL ES 3.0 Chromium)"`. -/
theorem parse_version_webgl_remap_witness :
    parse_version "WebGL 2.0 (OpenGL ES 3.0 Chromium)".toList
      = (parse_noremap "WebGL 2.0 (OpenGL ES 3.0 Chromium)".toList).map
          (fun p => ((p.1 + 1) % 256, p.2)) :=
  parse_version_webgl_remap.1 "WebGL 2.0 (OpenGL ES 3.0 Chromium)".toList
    (by decide) (by decide)

/-- Claim C6: the version parser is total — every string yields either a
`(major, minor)` pair or a parse error (the embedding has no panic path:
every slice is at a found-marker boundary and every numeric parse is an
explicit `Option`); any string lacking both the web-variant prefix and the
`" ES "` marker fails, and the malformed inputs `"1"`, `"1."`, `"1.2.3"`
each fail. -/
theorem parse_version_total_safe :
    (∀ src : Str, parse_version src = none ∨ ∃ M m, parse_version src = some (M, m))
    ∧ (∀ src : Str, webglSig.isPrefixOf src = false → rfindSub src esSig = none →
        parse_version src = none)
    ∧ parse_version "1".toList = none
    ∧ parse_version "1.".toList = none
    ∧ parse_version "1.2.3".toList = none := by
  refine ⟨?_, ?_, by decide, by decide, by decide⟩
  · intro src
    cases h : parse_version src with
    | none => exact Or.inl rfl
    | some p => exact Or.inr ⟨p.1, p.2, rfl⟩
  · intro src hw hes
    simp [parse_version, parse_core, hw, hes]

/-- Witness for C6: the generic no-marker case applied at `"Mesa 20.1.5"`. -/
theorem parse_version_total_safe_witness :
    parse_version "Mesa 20.1.5".toList = none :=
  parse_version_total_safe.2.1 "Mesa 20.1.5".toList (by decide) (by decide)

theorem mkAlignments_eq (stor uni : Nat) :
    mkAlignments stor uni =
      if stor = 0 ∨ uni = 0 then none
      else some { buffer_copy_offset := 4, buffer_copy_pitch := 4
                  uniform_buffer_offset := stor, storage_buffer_offset := uni } := by
  by_cases h1 : stor = 0 <;> by_cases h2 : uni = 0 <;>
    simp [mkAlignments, BufferSizeNew, h1, h2]

theorem exposeWithVersions_eq (gl : GlContext) (ver sl : Nat × Nat) :
    exposeWithVersions gl ver sl =
      if minStorageAlignment gl ver = 0 ∨
          u64_of_i32 gl.uniform_buffer_offset_alignment = 0 then
        ExposeResult.panicked
      else
        ExposeResult.ok (descriptorFrom gl ver sl) := by
  rw [exposeWithVersions, mkAlignments_eq]
  split_ifs <;> rfl

theorem expose_ok_elim {gl : GlContext} {d : ExposedAdapter}
    (h : expose gl = ExposeResult.ok d) :
    ∃ ver sl, parse_version gl.version = some ver ∧
      parse_version gl.shading_language_version = some sl ∧
      minStorageAlignment gl ver ≠ 0 ∧
      u64_of_i32 gl.uniform_buffer_offset_alignment ≠ 0 ∧
      d = descriptorFrom gl ver sl := by
  unfold expose at h
  split at h
  · cases h
  · rename_i ver hv
    split at h
    · cases h
    · rename_i sl hs
      rw [exposeWithVersions_eq] at h
      split_ifs at h with hc
      push_neg at hc
      exact ⟨ver, sl, hv, hs, hc.1, hc.2, (ExposeResult.ok.inj h).symm⟩

/-- Claim C1 (code bug): the queried storage-buffer offset alignment (or its
`256` default below version `(3,1)`) is stored in the descriptor field named
`uniform_buffer_offset`, and the queried uniform-buffer offset alignment in
the field named `storage_buffer_offset` — the assignments are swapped with
respect to the variables `min_uniform_buffer_offset_alignment` and
`min_storage_buffer_offset_alignment` that hold the query results.  At a
probe with queried uniform alignment 16 and storage alignment 32 the
descriptor holds uniform 32 / storage 16, and at version `(3,0)` the 256
storage default lands in the uniform field. -/
theorem expose_alignment_fields_swapped :
    baseCtx.uniform_buffer_offset_alignment = 16 ∧
    baseCtx.shader_storage_buffer_offset_alignment = 32 ∧
    parse_version baseCtx.version = some (3, 1) ∧
    alignmentsOf (expose baseCtx) = some
      { buffer_copy_offset := 4, buffer_copy_pitch := 4
        uniform_buffer_offset := 32, storage_buffer_offset := 16 } ∧
    alignmentsOf (expose { baseCtx with version := "OpenGL ES 3.0".toList }) = some
      { buffer_copy_offset := 4, buffer_copy_pitch := 4
        uniform_buffer_offset := 256, storage_buffer_offset := 16 } := by
  refine ⟨rfl, rfl, by decide, ?_, ?_⟩ <;> decide

/-- Claim C2 counterexample: with the driver reporting a zero uniform-buffer
offset alignment, the probe panics (a failed `unwrap`) instead of returning
the no-adapter result. -/
theorem expose_zero_alignment_panics_cex :
    expose { baseCtx with uniform_buffer_offset_alignment := 0 }
      = ExposeResult.panicked ∧
    expose { baseCtx with uniform_buffer_offset_alignment := 0 }
      ≠ ExposeResult.noAdapter := by
  refine ⟨?_, ?_⟩ <;> decide

/-- Claim C2 (amended): when both version strings parse and the driver
reports a zero offset alignment that the probe actually uses (the uniform
alignment always; the storage alignment only at version `(3,1)` and above),
`expose` panics on the failed `BufferSize::new(0).unwrap()` rather than
returning the no-adapter result; and a successful probe never contains a
zero alignment. -/
theorem expose_zero_alignment_behavior :
    (∀ (gl : GlContext) (ver sl : Nat × Nat),
      parse_version gl.version = some ver →
      parse_version gl.shading_language_version = some sl →
      (gl.uniform_buffer_offset_alignment = 0 ∨
        (verGe ver (3, 1) = true ∧ gl.shader_storage_buffer_offset_alignment = 0)) →
      expose gl = ExposeResult.panicked)
    ∧ (∀ (gl : GlContext) (d : ExposedAdapter), expose gl = ExposeResult.ok d →
        d.alignments.uniform_buffer_offset ≠ 0 ∧
        d.alignments.storage_buffer_offset ≠ 0) := by
  constructor
  · intro gl ver sl hv hs hz
    have hcond : minStorageAlignment gl ver = 0 ∨
        u64_of_i32 gl.uniform_buffer_offset_alignment = 0 := by
      rcases hz with hz | ⟨hge, hz⟩
      · exact Or.inr (by rw [hz]; decide)
      · exact Or.inl (by rw [minStorageAlignment, if_pos hge, hz]; decide)
    simp only [expose, hv, hs, exposeWithVersions_eq, if_pos hcond]
  · intro gl d h
    obtain ⟨ver, sl, _, _, h1, h2, hd⟩ := expose_ok_elim h
    subst hd
    exact ⟨h1, h2⟩

/-- Witness for the amended C2: the panic branch at a concrete probe whose
driver reports a zero uniform-buffer offset alignment. -/
theorem expose_zero_alignment_behavior_witness :
    expose { baseCtx with uniform_buffer_offset_alignment := 0 }
      = ExposeResult.panicked :=
  expose_zero_alignment_behavior.1
    { baseCtx with uniform_buffer_offset_alignment := 0 } (3, 1) (3, 1)
    (by decide) (by decide) (Or.inl rfl)

/-- Claim C3 counterexample: at a probe whose driver reports a vertex-stage
storage-texture maximum of 2 and a fragment-stage maximum of 8, the
descriptor's per-stage storage-texture count is 8, not the minimum 2 of the
two stages. -/
theorem expose_storage_textures_not_min_cex :
    (limitsOf (expose baseCtx)).map Limits.max_storage_textures_per_shader_stage
      = some 8 ∧
    u32_of_i32 (min baseCtx.max_vertex_image_uniforms
        baseCtx.max_fragment_image_uniforms) = 2 ∧
    (limitsOf (expose baseCtx)).map Limits.max_storage_textures_per_shader_stage
      ≠ some (u32_of_i32 (min baseCtx.max_vertex_image_uniforms
          baseCtx.max_fragment_image_uniforms)) := by
  refine ⟨by decide, by decide, by decide⟩

/-- Claim C3 (amended): the per-stage uniform-buffer and storage-buffer
counts of a successful probe are the minimum of the vertex-stage and
fragment-stage maxima; the per-stage storage-texture count equals the
fragment-stage maximum alone (the vertex stage is not consulted). -/
theorem expose_per_stage_counts :
    ∀ (gl : GlContext) (d : ExposedAdapter), expose gl = ExposeResult.ok d →
      d.limits.max_uniform_buffers_per_shader_stage
        = u32_of_i32 (min gl.max_vertex_uniform_blocks gl.max_fragment_uniform_blocks) ∧
      d.limits.max_storage_buffers_per_shader_stage
        = u32_of_i32 (min gl.max_vertex_shader_storage_blocks
            gl.max_fragment_shader_storage_blocks) ∧
      d.limits.max_storage_textures_per_shader_stage
        = u32_of_i32 gl.max_fragment_image_uniforms := by
  intro gl d h
  obtain ⟨ver, sl, _, _, _, _, hd⟩ := expose_ok_elim h
  subst hd
  exact ⟨rfl, rfl, rfl⟩

/-- Witness for the amended C3: the per-stage counts of the concrete probe
`baseCtx` (uniform `min 12 14 = 12`, storage `min 4 6 = 4`, textures `8`). -/
theorem expose_per_stage_counts_witness :
    (descriptorFrom baseCtx (3, 1) (3, 1)).limits.max_uniform_buffers_per_shader_stage
      = u32_of_i32 (min baseCtx.max_vertex_uniform_blocks
          baseCtx.max_fragment_uniform_blocks) ∧
    (descriptorFrom baseCtx (3, 1) (3, 1)).limits.max_storage_buffers_per_shader_stage
      = u32_of_i32 (min baseCtx.max_vertex_shader_storage_blocks
          baseCtx.max_fragment_shader_storage_blocks) ∧
    (descriptorFrom baseCtx (3, 1) (3, 1)).limits.max_storage_textures_per_shader_stage
      = u32_of_i32 baseCtx.max_fragment_image_uniforms :=
  expose_per_stage_counts baseCtx (descriptorFrom baseCtx (3, 1) (3, 1)) (by decide)

/-- Claim C7: for two probes that differ only in the version string, parsed
as `(3,0)` and `(3,1)` respectively, every feature flag, downlevel flag and
private-capability flag set in the `(3,0)` descriptor is also set in the
`(3,1)` descriptor. -/
theorem expose_version_monotone_30_31 :
    ∀ (gl30 gl31 : GlContext) (d30 d31 : ExposedAdapter),
      parse_version gl30.version = some (3, 0) →
      parse_version gl31.version = some (3, 1) →
      gl31 = { gl30 with version := gl31.version } →
      expose gl30 = ExposeResult.ok d30 →
      expose gl31 = ExposeResult.ok d31 →
      featuresLe d30.features d31.features ∧
      downlevelLe d30.downlevel_flags d31.downlevel_flags ∧
      privateLe d30.private_caps d31.private_caps := by
  intro gl30 gl31 d30 d31 h30 h31 hsame hok30 hok31
  obtain ⟨ver30, sl30, hv30, _, _, _, hd30⟩ := expose_ok_elim hok30
  obtain ⟨ver31, sl31, hv31, _, _, _, hd31⟩ := expose_ok_elim hok31
  have hver30 : ver30 = (3, 0) := Option.some.inj (hv30.symm.trans h30)
  have hver31 : ver31 = (3, 1) := Option.some.inj (hv31.symm.trans h31)
  subst hd30
  subst hd31
  subst hver30
  subst hver31
  have hExt : gl31.extensions = gl30.extensions := by rw [hsame]
  have e1 : verGe (3, 0) (3, 1) = false := by decide
  have e2 : verGe (3, 1) (3, 1) = true := by decide
  have e3 : verGe (3, 0) (3, 2) = false := by decide
  have e4 : verGe (3, 1) (3, 2) = false := by decide
  refine ⟨?_, ?_, ?_⟩ <;>
    simp [featuresLe, downlevelLe, privateLe, descriptorFrom, featuresFrom,
      downlevelFrom, privateCapsFrom, e1, e2, e3, e4, hExt]

/-- Witness for C7: the monotonicity instance at two concrete probes that
differ only in the version string (`"OpenGL ES 3.0"` versus `"OpenGL ES 3.1"`). -/
theorem expose_version_monotone_30_31_witness :
    featuresLe (descriptorFrom { baseCtx with version := "OpenGL ES 3.0".toList }
        (3, 0) (3, 1)).features
      (descriptorFrom baseCtx (3, 1) (3, 1)).features ∧
    downlevelLe (descriptorFrom { baseCtx with version := "OpenGL ES 3.0".toList }
        (3, 0) (3, 1)).downlevel_flags
      (descriptorFrom baseCtx (3, 1) (3, 1)).downlevel_flags ∧
    privateLe (descriptorFrom { baseCtx with version := "OpenGL ES 3.0".toList }
        (3, 0) (3, 1)).private_caps
      (descriptorFrom baseCtx (3, 1) (3, 1)).private_caps :=
  expose_version_monotone_30_31
    { baseCtx with version := "OpenGL ES 3.0".toList } baseCtx
    (descriptorFrom { baseCtx with version := "OpenGL ES 3.0".toList } (3, 0) (3, 1))
    (descriptorFrom baseCtx (3, 1) (3, 1))
    (by decide) (by decide) rfl (by decide) (by decide)

/-- Claim C8: the per-format capability query is total over every recognized
pixel format, always returning a non-empty capability set, and every
block-compressed / ASTC / ETC / EAC format maps to exactly
sampled + linear-filterable — no color-attachment, blending, storage or
depth-stencil-attachment bits. -/
theorem texture_format_capabilities_total_compressed :
    (∀ f : TextureFormat, texture_format_capabilities f ≠ emptyTfc)
    ∧ (∀ f : TextureFormat, isCompressedFormat f = true →
        texture_format_capabilities f =
          { sampled := true, sampled_linear := true, color_attachment := false
            color_attachment_blend := false, storage := false
            depth_stencil_attachment := false }) := by
  constructor
  · intro f
    cases f <;> decide
  · intro f
    cases f <;> decide

/-- Witness for C8: the compressed-format clause at `Etc2RgbUnorm`. -/
theorem texture_format_capabilities_total_compressed_witness :
    texture_format_capabilities TextureFormat.Etc2RgbUnorm =
      { sampled := true, sampled_linear := true, color_attachment := false
        color_attachment_blend := false, storage := false
        depth_stencil_attachment := false } :=
  texture_format_capabilities_total_compressed.2 TextureFormat.Etc2RgbUnorm (by decide)

/-- Claim C9: the per-surface capability query returns nothing exactly when
the surface is not presentable, and otherwise returns the fixed descriptor:
exactly the color formats `Rgba8UnormSrgb` and `Bgra8UnormSrgb`, the single
FIFO present mode, the single opaque composite-alpha mode, swap-chain size
fixed at 2, and an extent range from 4×4 to 4096×4096. -/
theorem surface_capabilities_spec :
    ∀ s : Surface,
      (surface_capabilities s = none ↔ s.presentable = false) ∧
      (s.presentable = true →
        surface_capabilities s = some
          { formats := [TextureFormat.Rgba8UnormSrgb, TextureFormat.Bgra8UnormSrgb]
            present_modes := [PresentMode.Fifo]
            composite_alpha_modes := [CompositeAlphaMode.Opaque]
            swap_chain_sizes := (2, 2)
            current_extent := none
            extents :=
              ({ width := 4, height := 4, depth_or_array_layers := 1 },
               { width := 4096, height := 4096, depth_or_array_layers := 1 })
            usage := { color_target := true } }) := by
  intro s
  obtain ⟨p⟩ := s
  cases p <;> constructor <;> simp [surface_capabilities]

/-- Witness for C9: the presentable branch at a concrete presentable surface. -/
theorem surface_capabilities_spec_witness :
    surface_capabilities { presentable := true } = some
      { formats := [TextureFormat.Rgba8UnormSrgb, TextureFormat.Bgra8UnormSrgb]
        present_modes := [PresentMode.Fifo]
        composite_alpha_modes := [CompositeAlphaMode.Opaque]
        swap_chain_sizes := (2, 2)
        current_extent := none
        extents :=
          ({ width := 4, height := 4, depth_or_array_layers := 1 },
           { width := 4096, height := 4096, depth_or_array_layers := 1 })
        usage := { color_target := true } } :=
  (surface_capabilities_spec { presentable := true }).2 rfl

/-- Claim C10: whenever the device classifier resolves the vendor id to
`0x5143` (Qualcomm) or `0x8086` (Intel), the inferred device class is
`IntegratedGpu` — the id table and the class inference cannot disagree for
these two vendors, since both key on the same lowercased vendor string. -/
theorem make_info_qualcomm_intel_integrated :
    ∀ vendor renderer : Str,
      (make_info vendor renderer).vendor = 0x5143 ∨
        (make_info vendor renderer).vendor = 0x8086 →
      (make_info vendor renderer).device_type = DeviceType.IntegratedGpu := by
  intro vendor renderer h
  by_cases hq : containsSub (toLowerStr vendor) "qualcomm".toList = true
  · simp only [make_info]
    rw [hq]
    simp
  · by_cases hi : containsSub (toLowerStr vendor) "intel".toList = true
    · simp only [make_info]
      rw [hi]
      simp
    · exfalso
      have hq' : containsSub (toLowerStr vendor) "qualcomm".toList = false :=
        Bool.eq_false_iff.mpr hq
      have hi' : containsSub (toLowerStr vendor) "intel".toList = false :=
        Bool.eq_false_iff.mpr hi
      simp only [make_info, hq', hi', Bool.false_eq_true, if_false] at h
      split_ifs at h <;> rcases h with h | h <;> exact absurd h (by decide)

/-- Witness for C10: a Qualcomm vendor string classifies as integrated. -/
theorem make_info_qualcomm_intel_integrated_witness :
    (make_info "Qualcomm".toList "Adreno 640".toList).device_type
      = DeviceType.IntegratedGpu :=
  make_info_qualcomm_intel_integrated "Qualcomm".toList "Adreno 640".toList
    (Or.inl (by decide))

end WgpuGles
